import Mathlib

/-!
Shallow embedding of the geometry/selection/view core of korektor
(src/korektor.py). Python floats are modelled as exact rationals;
fallible Python code (raising TypeError, ValueError, ZeroDivisionError
or the wx assertion caught in Image.copy) is modelled with Except /
Option results. Pixel rasters are abstracted to their dimensions: no
claim concerns pixel values, only sizes, scales and cache state.
-/

namespace Korektor

/-- Errors raised by the Python code that the claims mention:
ValueError (the EmptySelection failure of the spec), the OperandError
subclass of TypeError raised by Point arithmetic (it carries the
operation symbol and the name of the offending operand type, matching
the message built in OperandError.__init__, korektor.py lines 48-58),
and ZeroDivisionError. -/
inductive PyErr where
  | valueError (msg : String)
  | operandError (op : String) (operand_type : String)
  | zeroDivision
deriving DecidableEq, Repr

/-- Python round applied to an exact rational: nearest integer with
ties to even, which is the rounding used by Python 3 round(). -/
def pyRound (q : ℚ) : ℤ :=
  if q - ⌊q⌋ < 1/2 then ⌊q⌋
  else if (1 : ℚ)/2 < q - ⌊q⌋ then ⌊q⌋ + 1
  else if ⌊q⌋ % 2 = 0 then ⌊q⌋ else ⌊q⌋ + 1

/-- Point (korektor.py lines 61-128): a 2D point with rational
coordinates. Point.__eq__ is componentwise equality, which is the
derived DecidableEq. -/
structure Point where
  x : ℚ
  y : ℚ
deriving DecidableEq, Repr

/-- Componentwise addition: the Point branch of Point.__add__ (line 82). -/
def Point.padd (p q : Point) : Point := ⟨p.x + q.x, p.y + q.y⟩

/-- Componentwise subtraction: the Point branch of Point.__sub__ (line 90). -/
def Point.psub (p q : Point) : Point := ⟨p.x - q.x, p.y - q.y⟩

/-- Componentwise multiplication: the Point branch of Point.__mul__ (line 98). -/
def Point.pmul (p q : Point) : Point := ⟨p.x * q.x, p.y * q.y⟩

/-- Componentwise true division: the Point branch of Point.__truediv__
(line 105). Total model using rational division; every call site used
by a claim has nonzero divisor components (Python would raise
ZeroDivisionError otherwise, which the dispatching model
Point.truediv below does track). -/
def Point.pdiv (p q : Point) : Point := ⟨p.x / q.x, p.y / q.y⟩

/-- Scalar division, as in img.scale / 2 (line 417) and
img_cp.scale / 2 (line 505): the Number branch of Point.__truediv__
(line 107). -/
def Point.sdiv (p : Point) (s : ℚ) : Point := ⟨p.x / s, p.y / s⟩

/-- Point.round (lines 117-121): both coordinates rounded with
Python round. -/
def Point.round (p : Point) : Point := ⟨(pyRound p.x : ℚ), (pyRound p.y : ℚ)⟩

/-- Point.ratio (lines 123-128): width over height. Total model;
Python raises ZeroDivisionError at y = 0, which is tracked explicitly
where a claim depends on it (scale_to_full_size). -/
def Point.ratio (p : Point) : ℚ := p.x / p.y

/-- The right operand of a Point arithmetic operation, as dispatched by
the isinstance checks in Point.__add__ .. Point.__floordiv__
(lines 80-115): another Point, a number (numbers.Number), or a value of
any other type, of which only the type name reaches the error message. -/
inductive Operand where
  | pt (p : Point)
  | num (s : ℚ)
  | other (type_name : String)
deriving DecidableEq, Repr

/-- Point.__add__ (lines 80-86). -/
def Point.add (p : Point) : Operand → Except PyErr Point
  | Operand.pt q => Except.ok (p.padd q)
  | Operand.num s => Except.ok ⟨p.x + s, p.y + s⟩
  | Operand.other t => Except.error (PyErr.operandError "+" t)

/-- Point.__sub__ (lines 88-94). -/
def Point.sub (p : Point) : Operand → Except PyErr Point
  | Operand.pt q => Except.ok (p.psub q)
  | Operand.num s => Except.ok ⟨p.x - s, p.y - s⟩
  | Operand.other t => Except.error (PyErr.operandError "-" t)

/-- Point.__mul__ (lines 96-101). -/
def Point.mul (p : Point) : Operand → Except PyErr Point
  | Operand.pt q => Except.ok (p.pmul q)
  | Operand.num s => Except.ok ⟨p.x * s, p.y * s⟩
  | Operand.other t => Except.error (PyErr.operandError "*" t)

/-- Point.__truediv__ (lines 103-108). A zero divisor component makes
the Python componentwise division raise ZeroDivisionError. -/
def Point.truediv (p : Point) : Operand → Except PyErr Point
  | Operand.pt q =>
      if q.x = 0 ∨ q.y = 0 then Except.error PyErr.zeroDivision
      else Except.ok (p.pdiv q)
  | Operand.num s =>
      if s = 0 then Except.error PyErr.zeroDivision
      else Except.ok ⟨p.x / s, p.y / s⟩
  | Operand.other t => Except.error (PyErr.operandError "/" t)

/-- Point.__floordiv__ (lines 110-115). Python // on numbers is the
floor of the exact quotient; a zero divisor raises ZeroDivisionError. -/
def Point.floordiv (p : Point) : Operand → Except PyErr Point
  | Operand.pt q =>
      if q.x = 0 ∨ q.y = 0 then Except.error PyErr.zeroDivision
      else Except.ok ⟨(⌊p.x / q.x⌋ : ℚ), (⌊p.y / q.y⌋ : ℚ)⟩
  | Operand.num s =>
      if s = 0 then Except.error PyErr.zeroDivision
      else Except.ok ⟨(⌊p.x / s⌋ : ℚ), (⌊p.y / s⌋ : ℚ)⟩
  | Operand.other t => Except.error (PyErr.operandError "//" t)

/-- SelectedArea (korektor.py lines 131-239). The Python object stores
a two element list self.selected_area = [top_left, None]; corner0 is
entry 0 (the constructor argument, set on mouse-down), corner1 is
entry 1 (set by close while dragging). Either may be absent. -/
structure SelectedArea where
  corner0 : Option Point
  corner1 : Option Point
deriving DecidableEq, Repr

/-- SelectedArea.close (lines 185-191): stores the far corner in
entry 1, leaving entry 0 untouched. -/
def SelectedArea.close (s : SelectedArea) (bottom_right : Point) : SelectedArea :=
  ⟨s.corner0, some bottom_right⟩

/-- SelectedArea.is_selected (lines 193-198): the area counts as closed
exactly when entry 1 is present. -/
def SelectedArea.is_selected (s : SelectedArea) : Bool := s.corner1.isSome

/-- SelectedArea.__sort_short__ (lines 156-164): sort a two element
list, swapping when vals[0] > vals[1]. -/
def sort_short (v0 v1 : ℚ) : ℚ × ℚ := if v1 < v0 then (v1, v0) else (v0, v1)

/-- SelectedArea.__has_proper_rect__ (lines 153-154) combined with
SelectedArea.__convert_coords__ (lines 173-183) on two present
corners: when corner0.x < corner1.x the stored pair is returned
unchanged (no sorting on either axis); otherwise both the x pair and
the y pair are sorted via __sort_coords__ (lines 166-171) and
reassembled as (top_left, bottom_right). -/
def convert_coords (c0 c1 : Point) : Point × Point :=
  if c0.x < c1.x then (c0, c1)
  else
    let xs := sort_short c0.x c1.x
    let ys := sort_short c0.y c1.y
    (⟨xs.1, ys.1⟩, ⟨xs.2, ys.2⟩)

/-- SelectedArea.get_width_height (lines 200-213): delegates to
__get_dimensions__ on the RAW stored pair self.selected_area (not the
__convert_coords__ output). __get_dimensions__ first raises ValueError
when the area is not closed (entry 1 absent); otherwise it returns
rect[1] - rect[0], where a missing entry 0 makes Point.__sub__
receive the right operand None and raise OperandError. -/
def SelectedArea.get_width_height (s : SelectedArea) : Except PyErr Point :=
  match s.corner1 with
  | none => Except.error
      (PyErr.valueError "Not possible to get width and height of null selection.")
  | some c1 =>
    match s.corner0 with
    | some c0 => Except.ok (c1.psub c0)
    | none => Except.error (PyErr.operandError "-" "NoneType")

/-- Rect: the wx.Rect built by SelectedArea.to_wx_rect, with integer
position and size. -/
structure Rect where
  x : ℤ
  y : ℤ
  w : ℤ
  h : ℤ
deriving DecidableEq, Repr

/-- SelectedArea.to_wx_rect (lines 229-239) on two present corners:
normalize with __convert_coords__, round the top-left corner, round
the difference bottom_right - top_left, and build the wx.Rect. -/
def to_wx_rect (c0 c1 : Point) : Rect :=
  let conv := convert_coords c0 c1
  let tl := conv.1
  let wh := conv.2.psub conv.1
  ⟨pyRound tl.x, pyRound tl.y, pyRound wh.x, pyRound wh.y⟩

/-- ScalingReturnVal (korektor.py lines 242-258). -/
structure ScalingReturnVal where
  scale : Point
  old_width : ℚ
  new_width : ℚ
  old_height : ℚ
  new_height : ℚ
deriving DecidableEq, Repr

/-- ScalingReturnVal.factor (lines 254-258). -/
def ScalingReturnVal.factor (r : ScalingReturnVal) : Point :=
  ⟨r.new_width / r.old_width, r.new_height / r.old_height⟩

/-- A rendered bitmap, abstracted to the integer size it was resampled
to (pixel content is not modelled). -/
structure Bitmap where
  w : ℤ
  h : ℤ
deriving DecidableEq, Repr

/-- Image (korektor.py lines 285-356): the wrapped raster is abstracted
to its native dimensions (GetWidth / GetHeight); scale is the mutable
display size (initialized to the native size in __init__, line 299);
bitmap_cache models self.bitmap_cache, None or the [scale, bitmap]
pair stored by get_bitmap. -/
structure Image where
  nativeW : ℕ
  nativeH : ℕ
  scale : Point
  bitmap_cache : Option (Point × Bitmap)
deriving DecidableEq, Repr

/-- Image.update_scale (lines 305-309): replaces the display scale and
nothing else (in particular it does not touch the cache). -/
def Image.update_scale (img : Image) (new_scale : Point) : Image :=
  { img with scale := new_scale }

/-- Image.get_scaled (lines 311-318): the raster resampled to the
rounded display scale, abstracted to the resulting bitmap size. -/
def Image.get_scaled (img : Image) : Bitmap :=
  ⟨pyRound img.scale.x, pyRound img.scale.y⟩

/-- Image.get_bitmap (lines 320-328). Returns the bitmap, the image
state afterwards, and whether a resample happened: when the cache is
present and its stored scale equals the current scale the cached
bitmap is returned untouched; otherwise the raster is resampled via
get_scaled, the pair [scale, bitmap] is stored, and the new bitmap is
returned. -/
def Image.get_bitmap (img : Image) : Bitmap × Image × Bool :=
  match img.bitmap_cache with
  | some (s, b) =>
      if s = img.scale then (b, img, false)
      else
        let bmp := img.get_scaled
        (bmp, { img with bitmap_cache := some (img.scale, bmp) }, true)
  | none =>
      let bmp := img.get_scaled
      (bmp, { img with bitmap_cache := some (img.scale, bmp) }, true)

/-- Image.copy (lines 330-338). wx.Image.GetSubImage returns the
sub-image only when the rectangle lies entirely within the image and
raises a wx assertion error otherwise (the documented wxWidgets
contract); the try/except in copy turns that into None. On success the
new Image wraps the sub-raster, so its native size and initial display
scale are the rectangle dimensions and its cache is empty
(Image.__init__, lines 291-303). -/
def Image.copy (img : Image) (copy_area : Rect) : Option Image :=
  if 0 ≤ copy_area.x ∧ 0 ≤ copy_area.y ∧
     copy_area.x + copy_area.w ≤ (img.nativeW : ℤ) ∧
     copy_area.y + copy_area.h ≤ (img.nativeH : ℤ) then
    some ⟨copy_area.w.toNat, copy_area.h.toNat,
          ⟨(copy_area.w.toNat : ℚ), (copy_area.h.toNat : ℚ)⟩, none⟩
  else none

/-- Image.paste (lines 340-347): clears the bitmap cache
unconditionally before delegating to wx.Image.Paste. The in-place
pixel overwrite is abstracted away (raster contents are not
modelled), so the visible state effect is exactly the cache reset. -/
def Image.paste (img : Image) : Image := { img with bitmap_cache := none }

/-- Image.get_scale_factor (lines 349-356): the current display scale
divided componentwise by the native raster size. -/
def Image.get_scale_factor (img : Image) : Point :=
  ⟨img.scale.x / (img.nativeW : ℚ), img.scale.y / (img.nativeH : ℚ)⟩

/-- ImageView.__scale_to_fit__ (korektor.py lines 382-403): compare the
two aspect ratios; when the element is relatively taller bind to the
container height and derive the width, otherwise bind to the container
width and derive the height. -/
def scale_to_fit (container_size element_size : Point) : ScalingReturnVal :=
  let container_ratio := container_size.ratio
  let element_ratio := element_size.ratio
  if element_ratio ≤ container_ratio then
    let new_height := container_size.y
    let new_width := new_height * element_ratio
    ⟨⟨new_width, new_height⟩, element_size.x, new_width, element_size.y, new_height⟩
  else
    let new_width := container_size.x
    let new_height := new_width / element_ratio
    ⟨⟨new_width, new_height⟩, element_size.x, new_width, element_size.y, new_height⟩

/-- ImageView.__get_center__ (lines 405-409): Point built from
int(x / 2) over the window size components; for the nonnegative
integer sizes wx reports, int truncation of x / 2 is natural number
halving. -/
def get_center (w h : ℕ) : Point := ⟨((w / 2 : ℕ) : ℚ), ((h / 2 : ℕ) : ℚ)⟩

/-- ImageView.__get_top_left__ (lines 411-417): window center minus
half the displayed image size. -/
def get_top_left (w h : ℕ) (img_scale : Point) : Point :=
  (get_center w h).psub (img_scale.sdiv 2)

/-- ImageView.__scale_to_full_size__ (lines 484-493), with the division
failures Python raises made explicit, in the order the statements
execute: ratio = coord.x / coord.y fails when coord.y = 0; the scale
factor self.img.scale.x / self.img.GetWidth() fails when the native
width is 0; scale_x = coord.x / scale_factor_x fails when the factor
is 0; and scale_y = scale_x / ratio fails when ratio = 0 (which
happens exactly when coord.x = 0). -/
def scale_to_full_size (coord : Point) (img_scale_x : ℚ) (nativeW : ℕ) :
    Except PyErr Point :=
  if coord.y = 0 then Except.error PyErr.zeroDivision
  else
    let ratio := coord.x / coord.y
    if (nativeW : ℚ) = 0 then Except.error PyErr.zeroDivision
    else
      let scale_factor_x := img_scale_x / (nativeW : ℚ)
      if scale_factor_x = 0 then Except.error PyErr.zeroDivision
      else
        let scale_x := coord.x / scale_factor_x
        if ratio = 0 then Except.error PyErr.zeroDivision
        else Except.ok ⟨scale_x, scale_x / ratio⟩

/-- The mouse event fields ImageView.__on_mousemove__ consults
(lines 525-538): Leaving(), Entering(), Dragging() and the logical
position. -/
structure MouseEvent where
  leaving : Bool
  entering : Bool
  dragging : Bool
  pos : Point
deriving DecidableEq, Repr

/-- ImageView state (korektor.py lines 365-379): the base image, the
optional clone buffer img_cp, the selection, the two boolean locks,
the last tracked mouse position (None until the first tracked motion)
and the current window size as reported by GetSize. -/
structure ViewState where
  img : Image
  img_cp : Option Image
  selected_area : SelectedArea
  rescale_lock : Bool
  mouse_pos_lock : Bool
  mouse_pos : Option Point
  winW : ℕ
  winH : ℕ
deriving DecidableEq, Repr

/-- ImageView.__init__ (lines 365-379): fresh empty selection,
rescale_lock True, mouse_pos_lock False, no clone buffer, no tracked
mouse position. -/
def init_view (w h : ℕ) (img : Image) : ViewState :=
  ⟨img, none, ⟨none, none⟩, true, false, none, w, h⟩

/-- The window size as a Point, as Point(self.GetSize()) builds it in
__new_size__ (line 431). -/
def win_point (s : ViewState) : Point := ⟨(s.winW : ℚ), (s.winH : ℚ)⟩

/-- ImageView.__new_size__ (lines 419-439) with the panel visible
passed as the shown flag (parent.IsShownOnScreen()): fit the image to
the window and update its display scale always; then, only when
rescale_lock is False, multiply the selection corners (when the area is
closed) and the clone buffer scale by the fit factor. A closed area
whose entry 0 is missing makes the in-place multiply raise
OperandError after the image scale was already updated, skipping the
clone buffer update; that aborted path keeps everything but the image
scale unchanged. -/
def new_size (s : ViewState) (shown : Bool) : ViewState :=
  if shown then
    let scaling := scale_to_fit (win_point s) s.img.scale
    let s1 := { s with img := s.img.update_scale scaling.scale }
    if s1.rescale_lock then s1
    else
      match s1.selected_area.corner1 with
      | some c1 =>
        match s1.selected_area.corner0 with
        | some c0 =>
          let sel := SelectedArea.mk (some (c0.pmul scaling.factor))
                                     (some (c1.pmul scaling.factor))
          let cp := s1.img_cp.map
            (fun cp => cp.update_scale (cp.scale.pmul scaling.factor))
          { s1 with selected_area := sel, img_cp := cp }
        | none => s1
      | none =>
        let cp := s1.img_cp.map
          (fun cp => cp.update_scale (cp.scale.pmul scaling.factor))
        { s1 with img_cp := cp }
  else s

/-- ImageView.__on_mouse_down__ (lines 502-511). The handler reads the
last tracked position self.mouse_pos; with none tracked yet the
subtraction on None raises and leaves the state unchanged. With a
clone buffer held, the paste target is converted through
__scale_to_full_size__, whose failure likewise aborts the handler
before any mutation; on success the paste clears the bitmap cache.
In every completed run the clone buffer is dropped and the selection
is replaced by a fresh area opened at mouse_pos minus the image
top-left. -/
def on_mouse_down (s : ViewState) : ViewState :=
  match s.mouse_pos with
  | none => s
  | some mp =>
    let tl := get_top_left s.winW s.winH s.img.scale
    match s.img_cp with
    | some cp =>
      let converted := (mp.psub tl).psub (cp.scale.sdiv 2)
      match scale_to_full_size converted s.img.scale.x s.img.nativeW with
      | Except.error _ => s
      | Except.ok _target =>
        { s with img := s.img.paste, img_cp := none,
                 selected_area := ⟨some (mp.psub tl), none⟩ }
    | none =>
      { s with img_cp := none,
               selected_area := ⟨some (mp.psub tl), none⟩ }

/-- The wx.Rect ImageView.__on_mouse_up__ extracts (lines 513-517):
the selection divided componentwise by the image scale factor
(SelectedArea.__truediv__, lines 146-151) and converted with
to_wx_rect. -/
def mouse_up_rect (img : Image) (c0 c1 : Point) : Rect :=
  let factor := img.get_scale_factor
  to_wx_rect (c0.pdiv factor) (c1.pdiv factor)

/-- ImageView.__on_mouse_up__ (lines 513-523). Nothing happens unless
the selection is closed. With both corners present, the selection is
divided by the scale factor, converted to a wx.Rect and copied out of
the base image: a failed copy (None) resets the selection to a fresh
empty SelectedArea and leaves no clone buffer; a successful copy
becomes the clone buffer with its scale multiplied back by the
factor. A closed selection with entry 0 missing raises inside
SelectedArea.__truediv__ and leaves the state unchanged. -/
def on_mouse_up (s : ViewState) : ViewState :=
  match s.selected_area.corner0, s.selected_area.corner1 with
  | some c0, some c1 =>
    let factor := s.img.get_scale_factor
    match s.img.copy (mouse_up_rect s.img c0 c1) with
    | none => { s with img_cp := none, selected_area := ⟨none, none⟩ }
    | some cp =>
      { s with img_cp := some (cp.update_scale (cp.scale.pmul factor)) }
  | _, _ => s

/-- ImageView.__on_mousemove__ (lines 525-538). A leave event sets
mouse_pos_lock, an enter event clears it; when the (updated) lock is
off the position is tracked, and a dragging motion additionally sets
rescale_lock and closes the selection at the position minus the image
top-left. -/
def on_mousemove (s : ViewState) (e : MouseEvent) : ViewState :=
  let s1 := if e.leaving then { s with mouse_pos_lock := true }
            else if e.entering then { s with mouse_pos_lock := false }
            else s
  if s1.mouse_pos_lock then s1
  else
    let s2 := { s1 with mouse_pos := some e.pos }
    if e.dragging then
      { s2 with rescale_lock := true,
                selected_area := s2.selected_area.close
                  (e.pos.psub (get_top_left s2.winW s2.winH s2.img.scale)) }
    else s2

/-- ImageView.__on_resize__ (lines 540-541): arm rescaling. -/
def on_resize (s : ViewState) : ViewState := { s with rescale_lock := false }

/-- The selection invariant of the spec: a far corner is stored only
when an anchor is. -/
abbrev sel_inv (s : ViewState) : Prop :=
  s.selected_area.corner1.isSome = true → s.selected_area.corner0.isSome = true

end Korektor

namespace Korektor

/-! Concrete example values used by witnesses and counterexamples. -/

/-- A 100 by 100 image displayed at its native size, with an empty
bitmap cache. -/
def img_base : Image := ⟨100, 100, ⟨100, 100⟩, none⟩

/-- The view state of claim C2: a 100 by 100 raster displayed at
200 by 200 (display scale factor (2,2)) in a 300 by 300 window, so the
image top-left offset is (50,50), with the tracked mouse position at
the window point (100,100). -/
def s2ex : ViewState :=
  ⟨⟨100, 100, ⟨200, 200⟩, none⟩, none, ⟨none, none⟩, true, false,
   some ⟨100, 100⟩, 300, 300⟩

/-- The view state of claim C4: a 200 by 200 raster displayed 1:1,
with a closed selection entirely outside the raster. -/
def s4ex : ViewState :=
  ⟨⟨200, 200, ⟨200, 200⟩, none⟩, none, ⟨some ⟨250, 250⟩, some ⟨300, 300⟩⟩,
   true, false, none, 400, 400⟩

/-- Claim C1: the claim states that SelectedArea.__convert_coords__
sorts the two x-values and the two y-values independently and is
therefore invariant under swapping anchor and far_corner. The code
skips all sorting whenever anchor.x < far_corner.x, so with anchor
(0,1) and far corner (1,0) it returns the pair unchanged with the
y-values unsorted, while the swapped order returns the properly
normalized rectangle ((0,0),(1,1)): the two orders disagree, and the
first result is not in the [top_left, bottom_right] format the
docstring of __convert_coords__ promises. -/
theorem claim1_eval :
    convert_coords ⟨0, 1⟩ ⟨1, 0⟩ = (⟨0, 1⟩, ⟨1, 0⟩) ∧
    convert_coords ⟨1, 0⟩ ⟨0, 1⟩ = (⟨0, 0⟩, ⟨1, 1⟩) ∧
    convert_coords ⟨0, 1⟩ ⟨1, 0⟩ ≠ convert_coords ⟨1, 0⟩ ⟨0, 1⟩ := by
  refine ⟨by norm_num [convert_coords, sort_short],
          by norm_num [convert_coords, sort_short], ?_⟩
  norm_num [convert_coords, sort_short]

/-- Claim C2, counterexample: pointer-down with the tracked mouse
position at window point (100,100), top-left offset (50,50) and
display scale factor (2,2) stores the anchor (50,50), not the
image-space point (P - top_left_offset) / display_scale = (25,25)
stated by the claim. -/
theorem claim2_counterexample :
    (on_mouse_down s2ex).selected_area.corner0 = some ⟨50, 50⟩ ∧
    get_top_left s2ex.winW s2ex.winH s2ex.img.scale = ⟨50, 50⟩ ∧
    s2ex.img.get_scale_factor = ⟨2, 2⟩ ∧
    ((Point.mk 100 100).psub ⟨50, 50⟩).pdiv ⟨2, 2⟩ = ⟨25, 25⟩ ∧
    Point.mk 50 50 ≠ ⟨25, 25⟩ := by
  refine ⟨?_, ?_, ?_, ?_, ?_⟩
  · norm_num [on_mouse_down, s2ex, get_top_left, get_center, Point.psub, Point.sdiv]
  · norm_num [s2ex, get_top_left, get_center, Point.psub, Point.sdiv]
  · norm_num [s2ex, Image.get_scale_factor]
  · norm_num [Point.psub, Point.pdiv]
  · norm_num

/-- Claim C2 as amended: on pointer-down (with no clone buffer held and
a tracked position), the stored anchor is the window point minus the
image top-left offset only, with no division by the display scale:
selection coordinates live in display space, and the division by the
scale factor happens later, on pointer-up and before pasting. -/
theorem claim2_amended (s : ViewState) (mp : Point)
    (hcp : s.img_cp = none) (hmp : s.mouse_pos = some mp) :
    (on_mouse_down s).selected_area =
      ⟨some (mp.psub (get_top_left s.winW s.winH s.img.scale)), none⟩ := by
  simp [on_mouse_down, hmp, hcp]

/-- Witness for claim C2: the amended statement evaluated at the
concrete state of the counterexample yields the anchor (50,50). -/
theorem claim2_witness :
    (on_mouse_down s2ex).selected_area = ⟨some ⟨50, 50⟩, none⟩ := by
  have h := claim2_amended s2ex ⟨100, 100⟩ rfl rfl
  rw [h]
  norm_num [s2ex, get_top_left, get_center, Point.psub, Point.sdiv]

/-- Claim C8, counterexample: on the closed selection with anchor
(10,10) and far corner (5,5), get_width_height returns the raw
difference (-5,-5), not the dimensions (5,5) of the normalized
rectangle computed by __convert_coords__. -/
theorem claim8_counterexample :
    SelectedArea.get_width_height ⟨some ⟨10, 10⟩, some ⟨5, 5⟩⟩ = Except.ok ⟨-5, -5⟩ ∧
    (convert_coords ⟨10, 10⟩ ⟨5, 5⟩).2.psub (convert_coords ⟨10, 10⟩ ⟨5, 5⟩).1 = ⟨5, 5⟩ ∧
    Point.mk (-5) (-5) ≠ ⟨5, 5⟩ := by
  refine ⟨?_, ?_, ?_⟩
  · norm_num [SelectedArea.get_width_height, Point.psub]
  · norm_num [convert_coords, sort_short, Point.psub]
  · norm_num

/-- Claim C8 as amended: get_width_height returns far_corner minus
anchor computed on the raw stored corners, not on the normalized
rectangle (so the components are negative when the drag went up or
left); it fails with the EmptySelection ValueError exactly when the
far corner is absent, and a closed selection with a missing anchor
fails with an OperandError instead. -/
theorem claim8_amended :
    (∀ c0 c1 : Point,
        SelectedArea.get_width_height ⟨some c0, some c1⟩ = Except.ok (c1.psub c0)) ∧
    (∀ c0 : Option Point,
        SelectedArea.get_width_height ⟨c0, none⟩ =
          Except.error
            (PyErr.valueError "Not possible to get width and height of null selection.")) ∧
    (∀ c1 : Point,
        SelectedArea.get_width_height ⟨none, some c1⟩ =
          Except.error (PyErr.operandError "-" "NoneType")) ∧
    (∀ s : SelectedArea,
        (∃ msg, s.get_width_height = Except.error (PyErr.valueError msg)) ↔
          s.corner1 = none) := by
  refine ⟨fun c0 c1 => rfl, fun c0 => rfl, fun c1 => rfl, fun s => ?_⟩
  constructor
  · rintro ⟨msg, hmsg⟩
    cases h1 : s.corner1 with
    | none => rfl
    | some c1 =>
      cases h0 : s.corner0 with
      | none => simp [SelectedArea.get_width_height, h1, h0] at hmsg
      | some c0 => simp [SelectedArea.get_width_height, h1, h0] at hmsg
  · intro h1
    exact ⟨"Not possible to get width and height of null selection.",
      by simp [SelectedArea.get_width_height, h1]⟩

/-- Witness for claim C8: the amended statement evaluated at concrete
corners (1,2) and (4,6) returns the raw difference (3,4). -/
theorem claim8_witness :
    SelectedArea.get_width_height ⟨some ⟨1, 2⟩, some ⟨4, 6⟩⟩ = Except.ok ⟨3, 4⟩ := by
  have h := claim8_amended.1 ⟨1, 2⟩ ⟨4, 6⟩
  rw [h]
  norm_num [Point.psub]

/-- Claim C9: each of the five Point operations is componentwise on a
Point right operand, broadcasts a scalar right operand to both
components, and fails with an OperandError naming the operation symbol
and the operand type name on any other operand; the two division
operations additionally require nonzero divisor components (Python
raises ZeroDivisionError otherwise, see Point.truediv and
Point.floordiv). -/
theorem claim9_point_ops :
    (∀ p q : Point, p.add (Operand.pt q) = Except.ok ⟨p.x + q.x, p.y + q.y⟩) ∧
    (∀ (p : Point) (s : ℚ), p.add (Operand.num s) = Except.ok ⟨p.x + s, p.y + s⟩) ∧
    (∀ (p : Point) (t : String),
        p.add (Operand.other t) = Except.error (PyErr.operandError "+" t)) ∧
    (∀ p q : Point, p.sub (Operand.pt q) = Except.ok ⟨p.x - q.x, p.y - q.y⟩) ∧
    (∀ (p : Point) (s : ℚ), p.sub (Operand.num s) = Except.ok ⟨p.x - s, p.y - s⟩) ∧
    (∀ (p : Point) (t : String),
        p.sub (Operand.other t) = Except.error (PyErr.operandError "-" t)) ∧
    (∀ p q : Point, p.mul (Operand.pt q) = Except.ok ⟨p.x * q.x, p.y * q.y⟩) ∧
    (∀ (p : Point) (s : ℚ), p.mul (Operand.num s) = Except.ok ⟨p.x * s, p.y * s⟩) ∧
    (∀ (p : Point) (t : String),
        p.mul (Operand.other t) = Except.error (PyErr.operandError "*" t)) ∧
    (∀ p q : Point, q.x ≠ 0 → q.y ≠ 0 →
        p.truediv (Operand.pt q) = Except.ok ⟨p.x / q.x, p.y / q.y⟩) ∧
    (∀ (p : Point) (s : ℚ), s ≠ 0 →
        p.truediv (Operand.num s) = Except.ok ⟨p.x / s, p.y / s⟩) ∧
    (∀ (p : Point) (t : String),
        p.truediv (Operand.other t) = Except.error (PyErr.operandError "/" t)) ∧
    (∀ p q : Point, q.x ≠ 0 → q.y ≠ 0 →
        p.floordiv (Operand.pt q) = Except.ok ⟨(⌊p.x / q.x⌋ : ℚ), (⌊p.y / q.y⌋ : ℚ)⟩) ∧
    (∀ (p : Point) (s : ℚ), s ≠ 0 →
        p.floordiv (Operand.num s) = Except.ok ⟨(⌊p.x / s⌋ : ℚ), (⌊p.y / s⌋ : ℚ)⟩) ∧
    (∀ (p : Point) (t : String),
        p.floordiv (Operand.other t) = Except.error (PyErr.operandError "//" t)) := by
  refine ⟨fun p q => rfl, fun p s => rfl, fun p t => rfl,
          fun p q => rfl, fun p s => rfl, fun p t => rfl,
          fun p q => rfl, fun p s => rfl, fun p t => rfl,
          fun p q hx hy => ?_, fun p s hs => ?_, fun p t => rfl,
          fun p q hx hy => ?_, fun p s hs => ?_, fun p t => rfl⟩
  · simp [Point.truediv, Point.pdiv, hx, hy]
  · simp [Point.truediv, hs]
  · simp [Point.floordiv, hx, hy]
  · simp [Point.floordiv, hs]

/-- Witness for claim C9: the operations evaluated at concrete
operands, with the nonzero-divisor hypotheses discharged. -/
theorem claim9_witness :
    Point.add ⟨1, 2⟩ (Operand.pt ⟨3, 4⟩) = Except.ok ⟨4, 6⟩ ∧
    Point.truediv ⟨6, 8⟩ (Operand.pt ⟨2, 4⟩) = Except.ok ⟨3, 2⟩ ∧
    Point.floordiv ⟨7, 9⟩ (Operand.num 2) = Except.ok ⟨3, 4⟩ ∧
    Point.mul ⟨1, 2⟩ (Operand.other "str") = Except.error (PyErr.operandError "*" "str") := by
  refine ⟨?_, ?_, ?_, claim9_point_ops.2.2.2.2.2.2.2.2.1 ⟨1, 2⟩ "str"⟩
  · have h := claim9_point_ops.1 ⟨1, 2⟩ ⟨3, 4⟩
    rw [h]; norm_num
  · have h := claim9_point_ops.2.2.2.2.2.2.2.2.2.1 ⟨6, 8⟩ ⟨2, 4⟩ (by norm_num) (by norm_num)
    rw [h]; norm_num
  · have h := claim9_point_ops.2.2.2.2.2.2.2.2.2.2.2.2.2.1 ⟨7, 9⟩ 2 (by norm_num)
    rw [h]
    norm_num

/-- Claim C10, counterexample: the claim states that for every
coordinate with nonzero y the conversion returns a point whose y
result is derived from the x-axis factor. At the coordinate (0,5)
(y nonzero) with image scale x 2 over native width 1 the code instead
raises ZeroDivisionError, because scale_y divides by the ratio
x / y = 0. -/
theorem claim10_counterexample :
    scale_to_full_size ⟨0, 5⟩ 2 1 = Except.error PyErr.zeroDivision ∧
    (Point.mk 0 5).y ≠ 0 := by
  constructor
  · norm_num [scale_to_full_size]
  · norm_num

/-- Claim C10 as amended: the conversion fails with ZeroDivisionError
whenever the y component is zero (the ratio x / y is computed first);
it also fails whenever the x component is zero with y nonzero (the y
result divides by the then-zero ratio); for both components nonzero
and a nonzero scale factor it returns (x / sfx, y / sfx), deriving the
y result from the x-axis factor sfx alone, and that equals the
per-axis division (x / sfx, y / sfy) exactly when the two axis factors
coincide. -/
theorem claim10_amended :
    (∀ (coord : Point) (sx : ℚ) (nw : ℕ), coord.y = 0 →
        scale_to_full_size coord sx nw = Except.error PyErr.zeroDivision) ∧
    (∀ (coord : Point) (sx : ℚ) (nw : ℕ), coord.x = 0 → coord.y ≠ 0 →
        scale_to_full_size coord sx nw = Except.error PyErr.zeroDivision) ∧
    (∀ (coord : Point) (sx : ℚ) (nw : ℕ), coord.x ≠ 0 → coord.y ≠ 0 →
        (nw : ℚ) ≠ 0 → sx ≠ 0 →
        scale_to_full_size coord sx nw =
          Except.ok ⟨coord.x / (sx / (nw : ℚ)), coord.y / (sx / (nw : ℚ))⟩) ∧
    (∀ (coord : Point) (sx : ℚ) (nw : ℕ) (sfy : ℚ), coord.x ≠ 0 → coord.y ≠ 0 →
        (nw : ℚ) ≠ 0 → sx ≠ 0 → sfy ≠ 0 →
        (scale_to_full_size coord sx nw =
            Except.ok ⟨coord.x / (sx / (nw : ℚ)), coord.y / sfy⟩ ↔
          sx / (nw : ℚ) = sfy)) := by
  have key : ∀ (coord : Point) (sx : ℚ) (nw : ℕ), coord.x ≠ 0 → coord.y ≠ 0 →
      (nw : ℚ) ≠ 0 → sx ≠ 0 →
      scale_to_full_size coord sx nw =
        Except.ok ⟨coord.x / (sx / (nw : ℚ)), coord.y / (sx / (nw : ℚ))⟩ := by
    intro coord sx nw hx hy hnw hsx
    have hratio : coord.x / coord.y ≠ 0 := div_ne_zero hx hy
    have hsfx : sx / (nw : ℚ) ≠ 0 := div_ne_zero hsx hnw
    simp only [scale_to_full_size, if_neg hy, if_neg hnw, if_neg hsfx, if_neg hratio,
      Except.ok.injEq, Point.mk.injEq]
    refine ⟨trivial, ?_⟩
    field_simp
    ring
  refine ⟨?_, ?_, key, ?_⟩
  · intro coord sx nw hy
    simp [scale_to_full_size, hy]
  · intro coord sx nw hx hy
    have hratio : coord.x / coord.y = 0 := by rw [hx]; simp
    simp only [scale_to_full_size, if_neg hy, hratio, if_pos rfl]
    split_ifs <;> rfl
  · intro coord sx nw sfy hx hy hnw hsx hsfy
    rw [key coord sx nw hx hy hnw hsx]
    simp only [Except.ok.injEq, Point.mk.injEq, true_and]
    constructor
    · intro h
      have hsfx : sx / (nw : ℚ) ≠ 0 := div_ne_zero hsx hnw
      rw [div_eq_div_iff hsfx hsfy] at h
      exact mul_left_cancel₀ hy (by linarith [h])
    · intro h
      rw [h]

/-- Witness for claim C10: the amended statement evaluated at the
coordinate (3,4) with image scale x 2 over native width 1 (factor 2)
returns (3/2, 2), both components divided by the x-axis factor. -/
theorem claim10_witness :
    scale_to_full_size ⟨3, 4⟩ 2 1 = Except.ok ⟨3 / 2, 2⟩ := by
  have h := claim10_amended.2.2.1 ⟨3, 4⟩ 2 1 (by norm_num) (by norm_num)
    (by norm_num) (by norm_num)
  rw [h]
  norm_num

end Korektor

namespace Korektor

/-- Claim C3: for positive container and element sizes, __scale_to_fit__
returns a size with exactly the element aspect ratio (the rational
model is exact, so the floating tolerance of the claim degenerates to
equality) that fits inside the container on both axes, touching it on
at least one. -/
theorem claim3_fit_correct (c e : Point) (hcx : 0 < c.x) (hcy : 0 < c.y)
    (hex : 0 < e.x) (hey : 0 < e.y) :
    (scale_to_fit c e).scale.ratio = e.ratio ∧
    (scale_to_fit c e).scale.x ≤ c.x ∧
    (scale_to_fit c e).scale.y ≤ c.y ∧
    ((scale_to_fit c e).scale.x = c.x ∨ (scale_to_fit c e).scale.y = c.y) := by
  have her : 0 < e.ratio := div_pos hex hey
  rcases le_or_lt e.ratio c.ratio with h | h
  · have hscale : (scale_to_fit c e).scale = ⟨c.y * e.ratio, c.y⟩ := by
      simp [scale_to_fit, h]
    rw [hscale]
    refine ⟨?_, ?_, le_refl _, Or.inr rfl⟩
    · simp only [Point.ratio]
      exact mul_div_cancel_left₀ _ hcy.ne'
    · have h2 : e.ratio * c.y ≤ c.x := (le_div_iff₀ hcy).mp h
      show c.y * e.ratio ≤ c.x
      linarith
  · have hscale : (scale_to_fit c e).scale = ⟨c.x, c.x / e.ratio⟩ := by
      simp [scale_to_fit, not_le.mpr h]
    rw [hscale]
    refine ⟨?_, le_refl _, ?_, Or.inl rfl⟩
    · simp only [Point.ratio]
      rw [div_div_eq_mul_div]
      exact mul_div_cancel_left₀ _ hcx.ne'
    · have h2 : c.x < e.ratio * c.y := (div_lt_iff₀ hcy).mp h
      show c.x / e.ratio ≤ c.y
      rw [div_le_iff₀ her]
      linarith

/-- Witness for claim C3: the fit of a 400 by 400 element into an
800 by 400 container is 400 by 400 (the height-bound case of the
claim), and the theorem applies there. -/
theorem claim3_witness :
    (scale_to_fit ⟨800, 400⟩ ⟨400, 400⟩).scale = ⟨400, 400⟩ ∧
    ((scale_to_fit ⟨800, 400⟩ ⟨400, 400⟩).scale.ratio = (Point.mk 400 400).ratio ∧
      (scale_to_fit ⟨800, 400⟩ ⟨400, 400⟩).scale.x ≤ (Point.mk 800 400).x ∧
      (scale_to_fit ⟨800, 400⟩ ⟨400, 400⟩).scale.y ≤ (Point.mk 800 400).y ∧
      ((scale_to_fit ⟨800, 400⟩ ⟨400, 400⟩).scale.x = (Point.mk 800 400).x ∨
        (scale_to_fit ⟨800, 400⟩ ⟨400, 400⟩).scale.y = (Point.mk 800 400).y)) :=
  ⟨by norm_num [scale_to_fit, Point.ratio],
   claim3_fit_correct ⟨800, 400⟩ ⟨400, 400⟩ (by norm_num) (by norm_num)
     (by norm_num) (by norm_num)⟩

/-- Claim C4: a copy rectangle not entirely inside the raster bounds
makes Image.copy return None instead of propagating the wx assertion;
and a pointer-up whose extraction returns None resets the selection to
a fresh empty SelectedArea and holds no clone buffer (the controller
returns to Idle rather than entering Holding). -/
theorem claim4_extract_out_of_bounds :
    (∀ (img : Image) (r : Rect),
        ¬(0 ≤ r.x ∧ 0 ≤ r.y ∧ r.x + r.w ≤ (img.nativeW : ℤ) ∧
           r.y + r.h ≤ (img.nativeH : ℤ)) →
        img.copy r = none) ∧
    (∀ (s : ViewState) (c0 c1 : Point),
        s.selected_area = ⟨some c0, some c1⟩ →
        s.img.copy (mouse_up_rect s.img c0 c1) = none →
        (on_mouse_up s).selected_area = ⟨none, none⟩ ∧
          (on_mouse_up s).img_cp = none) := by
  constructor
  · intro img r hr
    simp only [Image.copy, if_neg hr]
  · intro s c0 c1 hsel hcopy
    simp [on_mouse_up, hsel, hcopy]

/-- Witness for claim C4: the selection of s4ex, extending to (300,300)
on a 200 by 200 raster, produces the rectangle (250,250,50,50) whose
copy fails, so pointer-up resets the selection and holds no clone
buffer; and copy of a rectangle with a negative origin returns None
directly. -/
theorem claim4_witness :
    ((on_mouse_up s4ex).selected_area = ⟨none, none⟩ ∧
      (on_mouse_up s4ex).img_cp = none) ∧
    Image.copy ⟨200, 200, ⟨200, 200⟩, none⟩ ⟨-10, 0, 5, 5⟩ = none :=
  ⟨claim4_extract_out_of_bounds.2 s4ex ⟨250, 250⟩ ⟨300, 300⟩ rfl
     (by norm_num [s4ex, Image.copy, mouse_up_rect, to_wx_rect, convert_coords,
        sort_short, Image.get_scale_factor, Point.pdiv, Point.psub, pyRound]),
   claim4_extract_out_of_bounds.1 ⟨200, 200, ⟨200, 200⟩, none⟩ ⟨-10, 0, 5, 5⟩
     (by norm_num)⟩

/-- Claim C5: get_bitmap returns the cached bitmap without resampling
exactly when the cache holds the current scale; otherwise it resamples
(get_scaled resamples to the rounded display scale), stores the pair
(scale, bitmap) and returns it; a second get_bitmap on the resulting
state never resamples again (the scale is unchanged); and paste clears
the cache unconditionally. -/
theorem claim5_cache_coherent :
    (∀ (img : Image) (s : Point) (b : Bitmap),
        img.bitmap_cache = some (s, b) → s = img.scale →
        img.get_bitmap = (b, img, false)) ∧
    (∀ img : Image, (∀ b, img.bitmap_cache ≠ some (img.scale, b)) →
        img.get_bitmap =
          (img.get_scaled,
           { img with bitmap_cache := some (img.scale, img.get_scaled) }, true)) ∧
    (∀ img : Image, ((img.get_bitmap.2.1).get_bitmap).2.2 = false) ∧
    (∀ img : Image, img.paste.bitmap_cache = none) := by
  refine ⟨?_, ?_, ?_, fun img => rfl⟩
  · intro img s b hc hs
    simp [Image.get_bitmap, hc, hs]
  · intro img hb
    cases hc : img.bitmap_cache with
    | none => simp [Image.get_bitmap, hc]
    | some sb =>
      obtain ⟨s, b⟩ := sb
      have hne : s ≠ img.scale := by
        intro he
        exact hb b (by rw [hc, he])
      simp [Image.get_bitmap, hc, hne]
  · intro img
    cases hc : img.bitmap_cache with
    | none => simp [Image.get_bitmap, hc]
    | some sb =>
      obtain ⟨s, b⟩ := sb
      by_cases hs : s = img.scale
      · simp [Image.get_bitmap, hc, hs]
      · simp [Image.get_bitmap, hc, hs]

/-- A 100 by 100 image whose cache already holds the current scale:
get_bitmap on it is a cache hit. -/
def img_hit : Image := ⟨100, 100, ⟨100, 100⟩, some (⟨100, 100⟩, ⟨100, 100⟩)⟩

/-- Witness for claim C5: the cache-hit case evaluated on img_hit, and
the never-resample-twice case evaluated on the cache-less img_base. -/
theorem claim5_witness :
    Image.get_bitmap img_hit = (⟨100, 100⟩, img_hit, false) ∧
    ((img_base.get_bitmap.2.1).get_bitmap).2.2 = false :=
  ⟨claim5_cache_coherent.1 img_hit ⟨100, 100⟩ ⟨100, 100⟩ rfl rfl,
   claim5_cache_coherent.2.2.1 img_base⟩

end Korektor

namespace Korektor

/-- Helper: no motion event ever changes the stored anchor corner:
every path of __on_mousemove__ either leaves the selection alone or
closes it, and close only writes the far corner. -/
theorem on_mousemove_corner0 (s : ViewState) (e : MouseEvent) :
    (on_mousemove s e).selected_area.corner0 = s.selected_area.corner0 := by
  obtain ⟨l, en, d, pos⟩ := e
  cases l <;> cases en <;> cases d <;> by_cases hlock : s.mouse_pos_lock <;>
    simp [on_mousemove, SelectedArea.close, hlock]

/-- Helper: a motion event that is not a drag leaves the selection
unchanged on every path of __on_mousemove__. -/
theorem on_mousemove_no_drag (s : ViewState) (e : MouseEvent)
    (hd : e.dragging = false) :
    (on_mousemove s e).selected_area = s.selected_area := by
  obtain ⟨l, en, d, pos⟩ := e
  cases hd
  cases l <;> cases en <;> by_cases hlock : s.mouse_pos_lock <;>
    simp [on_mousemove, hlock]

/-- Claim C6, counterexample: a drag motion delivered as part of a
leave event (so pointer tracking is being suspended) does not set
rescale_lock back to true: after a resize armed rescaling, this drag
motion leaves the flag false, contradicting the claim that every drag
motion sets it. -/
theorem claim6_counterexample :
    (MouseEvent.mk true false true ⟨7, 7⟩).dragging = true ∧
    (on_mousemove (on_resize (init_view 300 300 img_base))
        ⟨true, false, true, ⟨7, 7⟩⟩).rescale_lock = false := by
  constructor
  · rfl
  · norm_num [on_mousemove, on_resize, init_view]

/-- Claim C6 as amended: rescale_lock is true at construction, set
false by every resize event, and set back to true by every drag motion
processed while pointer tracking is active (not a leave event, and
either an enter event or the position lock already off); and a rescale
(__new_size__ with the panel shown) performed with the flag false
multiplies both corners of a closed selection and the clone buffer
scale by the fit factor, while with the flag true it updates only the
base image display scale, leaving selection and clone buffer as they
were. -/
theorem claim6_rescale_lock :
    (∀ (w h : ℕ) (img : Image), (init_view w h img).rescale_lock = true) ∧
    (∀ s : ViewState, (on_resize s).rescale_lock = false) ∧
    (∀ (s : ViewState) (e : MouseEvent), e.dragging = true → e.leaving = false →
        (e.entering = true ∨ s.mouse_pos_lock = false) →
        (on_mousemove s e).rescale_lock = true) ∧
    (∀ (s : ViewState) (c0 c1 : Point), s.rescale_lock = false →
        s.selected_area = ⟨some c0, some c1⟩ →
        (new_size s true).selected_area =
          ⟨some (c0.pmul (scale_to_fit (win_point s) s.img.scale).factor),
           some (c1.pmul (scale_to_fit (win_point s) s.img.scale).factor)⟩ ∧
        (new_size s true).img_cp = s.img_cp.map
          (fun cp => cp.update_scale
            (cp.scale.pmul (scale_to_fit (win_point s) s.img.scale).factor))) ∧
    (∀ s : ViewState, s.rescale_lock = true →
        (new_size s true).selected_area = s.selected_area ∧
        (new_size s true).img_cp = s.img_cp ∧
        (new_size s true).img =
          s.img.update_scale (scale_to_fit (win_point s) s.img.scale).scale) := by
  refine ⟨fun w h img => rfl, fun s => rfl, ?_, ?_, ?_⟩
  · intro s e hd hl he
    obtain ⟨l, en, d, pos⟩ := e
    cases hd
    cases hl
    rcases he with he | he
    · cases he
      simp [on_mousemove]
    · cases en <;> simp [on_mousemove, he]
  · intro s c0 c1 hrl hsel
    constructor <;> simp [new_size, hrl, hsel]
  · intro s hrl
    refine ⟨?_, ?_, ?_⟩ <;> simp [new_size, hrl]

/-- Witness for claim C6: the flag transitions and the locked-rescale
effect evaluated at concrete states, with all hypotheses discharged. -/
theorem claim6_witness :
    (init_view 300 300 img_base).rescale_lock = true ∧
    (on_resize (init_view 300 300 img_base)).rescale_lock = false ∧
    (on_mousemove (init_view 300 300 img_base)
        ⟨false, false, true, ⟨7, 7⟩⟩).rescale_lock = true ∧
    (new_size s4ex true).selected_area = s4ex.selected_area :=
  ⟨claim6_rescale_lock.1 300 300 img_base,
   claim6_rescale_lock.2.1 (init_view 300 300 img_base),
   claim6_rescale_lock.2.2.1 (init_view 300 300 img_base)
     ⟨false, false, true, ⟨7, 7⟩⟩ rfl rfl (Or.inr rfl),
   (claim6_rescale_lock.2.2.2.2 s4ex rfl).1⟩

/-- Claim C7, counterexample: one drag motion delivered to the freshly
constructed view (whose selection has no anchor) closes the selection:
the resulting state, reachable in a single handler step, has a far
corner but no anchor, violating the claimed invariant. -/
theorem claim7_counterexample :
    (on_mousemove (init_view 300 300 img_base)
        ⟨false, false, true, ⟨3, 4⟩⟩).selected_area.corner1.isSome = true ∧
    (on_mousemove (init_view 300 300 img_base)
        ⟨false, false, true, ⟨3, 4⟩⟩).selected_area.corner0 = none := by
  constructor <;> norm_num [on_mousemove, init_view, SelectedArea.close]

/-- Claim C7 as amended: the invariant (far corner present implies
anchor present) holds at construction and is preserved by pointer-down,
pointer-up, resize and the rescale step, and by every motion event
whose state already has an anchor or which is not a drag; it is NOT
preserved by a drag motion on an anchorless selection, since close
stores the far corner unconditionally. -/
theorem claim7_invariant :
    (∀ (w h : ℕ) (img : Image), sel_inv (init_view w h img)) ∧
    (∀ s : ViewState, sel_inv s → sel_inv (on_mouse_down s)) ∧
    (∀ s : ViewState, sel_inv s → sel_inv (on_mouse_up s)) ∧
    (∀ s : ViewState, sel_inv s → sel_inv (on_resize s)) ∧
    (∀ (s : ViewState) (b : Bool), sel_inv s → sel_inv (new_size s b)) ∧
    (∀ (s : ViewState) (e : MouseEvent), sel_inv s →
        (s.selected_area.corner0.isSome = true ∨ e.dragging = false) →
        sel_inv (on_mousemove s e)) := by
  refine ⟨?_, ?_, ?_, ?_, ?_, ?_⟩
  · intro w h img h1
    simp [init_view] at h1
  · intro s hs
    cases hmp : s.mouse_pos with
    | none => simpa [on_mouse_down, hmp] using hs
    | some mp =>
      cases hcp : s.img_cp with
      | none =>
        intro h1
        simp [on_mouse_down, hmp, hcp]
      | some cp =>
        cases hsf : scale_to_full_size
            ((mp.psub (get_top_left s.winW s.winH s.img.scale)).psub
              (cp.scale.sdiv 2)) s.img.scale.x s.img.nativeW with
        | error err => simpa [on_mouse_down, hmp, hcp, hsf] using hs
        | ok p =>
          intro h1
          simp [on_mouse_down, hmp, hcp, hsf]
  · intro s hs
    cases h0 : s.selected_area.corner0 with
    | none =>
      cases h1 : s.selected_area.corner1 with
      | none => simp [on_mouse_up, h0, h1]
      | some c1 => simp [on_mouse_up, h0, h1] at hs
    | some c0 =>
      cases h1 : s.selected_area.corner1 with
      | none => simp [on_mouse_up, h0, h1]
      | some c1 =>
        cases hcopy : s.img.copy (mouse_up_rect s.img c0 c1) with
        | none =>
          intro hh
          simp [on_mouse_up, h0, h1, hcopy] at hh
        | some cp =>
          intro hh
          simp [on_mouse_up, h0, h1, hcopy]
  · intro s hs
    exact hs
  · intro s b hs
    cases b with
    | false => simpa [new_size] using hs
    | true =>
      by_cases hrl : s.rescale_lock = true
      · intro hh
        have hkeep : (new_size s true).selected_area = s.selected_area := by
          simp [new_size, hrl]
        rw [hkeep] at hh ⊢
        exact hs hh
      · have hrl2 : s.rescale_lock = false := by simpa using hrl
        cases h1 : s.selected_area.corner1 with
        | none =>
          intro hh
          have hkeep : (new_size s true).selected_area = s.selected_area := by
            simp [new_size, hrl2, h1]
          rw [hkeep] at hh ⊢
          exact hs hh
        | some c1 =>
          have h0 := hs (by rw [h1]; rfl)
          obtain ⟨c0, hc0⟩ := Option.isSome_iff_exists.mp h0
          intro hh
          simp [new_size, hrl2, h1, hc0]
  · intro s e hs hor
    rcases hor with h0 | hdf
    · intro hh
      rw [on_mousemove_corner0]
      exact h0
    · intro hh
      rw [on_mousemove_no_drag s e hdf] at hh ⊢
      exact hs hh

/-- Witness for claim C7: the invariant holds at construction and after
a pointer-down and a non-drag motion on a concrete state, with the
preservation hypotheses discharged at those inputs. -/
theorem claim7_witness :
    sel_inv (init_view 300 300 img_base) ∧
    sel_inv (on_mouse_down s2ex) ∧
    sel_inv (on_mouse_up s4ex) ∧
    sel_inv (on_mousemove s4ex ⟨false, false, false, ⟨1, 1⟩⟩) :=
  ⟨claim7_invariant.1 300 300 img_base,
   claim7_invariant.2.1 s2ex (fun h => by simp [s2ex] at h),
   claim7_invariant.2.2.1 s4ex (fun h => rfl),
   claim7_invariant.2.2.2.2.2 s4ex ⟨false, false, false, ⟨1, 1⟩⟩
     (fun h => rfl) (Or.inl rfl)⟩

end Korektor
